import Mathlib

/-!
# Shallow embedding of the clickhouse-benchmark harness

This file embeds the core of `src/benchmarks/benchmark_runner.py` and
`src/benchmarks/clickhouse_benchmark.py` in Lean and proves the stated
properties of the two-phase execution/attribution protocol, the result
aggregator, the memory-limit parser, and the connection gating.

Modelling conventions:
* The database is an oracle: Phase-1 submission outcomes are a function
  `SubmitEnv` from (benchmark name, run index) to an outcome, and Phase-2
  `system.query_log` probes are a function `LogEnv` from
  (query identifier, attempt index) to a reply.  One `LogEnv` reply stands
  for the outcome of one whole loop iteration of `_get_query_stats`
  (the `QueryFinish` probe followed, when empty, by the exception probe;
  a transient driver error during either probe is `transientError`).
* Python `None`-able integers from the log become `Option Nat`; Python
  truthiness (`x or y`) on them is `pyOrD`.
* Wall-clock durations are opaque rationals carried through unchanged.
* `statistics.stdev` is square-root valued, hence irrational; the
  aggregator is parametrised by an arbitrary `stdev : List ℚ → ℚ`.  Every
  property proved below holds for all such functions, in particular for
  the real one.
* Decimal numerals in the memory-limit parser are modelled exactly
  (numerator over a power of ten); `int()` truncation of the nonnegative
  parsed value is floor, i.e. `Nat` division.  All values appearing in the
  specification are exactly representable as IEEE doubles, so the exact
  model and Python's float agree on them.
* The free-text extraction of memory diagnostics (`would use ...`,
  `current RSS ...`, `maximum: ...`) only populates informational fields
  never consulted by the properties below; the classification of an error
  message as `MEMORY_LIMIT_EXCEEDED` (a substring test) is modelled.
-/

namespace ClickHouseBench

/-- Python truthiness-based coalescing of an optional integer field:
`int(a or d)` where `a` is `None`-able.  `None` and `0` are both falsy, so
both fall through to the default `d`. -/
def pyOrD (a : Option Nat) (d : Nat) : Nat :=
  match a with
  | none => d
  | some n => if n = 0 then d else n

/-! ## Data model (`benchmark_runner.py`) -/

/-- The open-ended `additional_metrics` side-channel of a `BenchmarkResult`,
restricted to the keys the engine writes and the aggregator/report read.
The purely informational `error_details` / `optimization_hints` payload of
memory-limit failures is not consulted by any verified property and is
omitted. -/
structure AdditionalMetrics where
  error : Option String := none
  error_message : Option String := none
  written_rows : Nat := 0
  written_bytes : Nat := 0
  result_bytes : Nat := 0
  warning : Option String := none
deriving DecidableEq

/-- `BenchmarkResult` dataclass.  The engine always stores integers in
`memory_usage` (it applies `int(...)`), so the field is a `Nat` here. -/
structure BenchmarkResult where
  query_name : String
  execution_time : ℚ
  memory_usage : Nat
  rows_read : Nat
  bytes_read : Nat
  rows_returned : Nat
  query : String
  additional_metrics : AdditionalMetrics
deriving DecidableEq

/-- `QueryBenchmark` dataclass: a named query definition with a repeat
count and its accumulating per-run results. -/
structure QueryBenchmark where
  name : String
  query : String
  description : String
  run_count : Nat := 3
  results : List BenchmarkResult := []
deriving DecidableEq

/-! ## Memory-limit parsing (`ClickHouseBenchmark._parse_memory_limit`) -/

/-- The characters Python's `str.isspace()` accepts — the exact set that
`str.strip()` removes and that the regex `\s` matches on `str` patterns:
HT LF VT FF CR, FS GS RS US, SPACE, NEL, NBSP, OGHAM SPACE MARK, the
EN-QUAD..HAIR-SPACE range, LINE/PARAGRAPH SEPARATOR, NARROW NBSP,
MEDIUM MATHEMATICAL SPACE, IDEOGRAPHIC SPACE.  This table is complete. -/
def pySpaceChars : List Char :=
  [Char.ofNat 0x09, Char.ofNat 0x0a, Char.ofNat 0x0b, Char.ofNat 0x0c,
   Char.ofNat 0x0d, Char.ofNat 0x1c, Char.ofNat 0x1d, Char.ofNat 0x1e,
   Char.ofNat 0x1f, ' ', Char.ofNat 0x85, Char.ofNat 0xa0,
   Char.ofNat 0x1680, Char.ofNat 0x2000, Char.ofNat 0x2001,
   Char.ofNat 0x2002, Char.ofNat 0x2003, Char.ofNat 0x2004,
   Char.ofNat 0x2005, Char.ofNat 0x2006, Char.ofNat 0x2007,
   Char.ofNat 0x2008, Char.ofNat 0x2009, Char.ofNat 0x200a,
   Char.ofNat 0x2028, Char.ofNat 0x2029, Char.ofNat 0x202f,
   Char.ofNat 0x205f, Char.ofNat 0x3000]

/-- Membership in the `str.isspace()` set. -/
def isPySpace (c : Char) : Bool :=
  pySpaceChars.contains c

/-- `str.strip()`: drop leading and trailing whitespace. -/
def pyStrip (s : List Char) : List Char :=
  ((s.dropWhile isPySpace).reverse.dropWhile isPySpace).reverse

/-- Characters beyond ASCII `0`-`9` that this development's table of
Unicode decimal digits (general category `Nd`, matched by the regex `\d`
and accepted by `int()`/`float()`) covers: the ARABIC-INDIC DIGIT block
U+0660..U+0669.  The full `Nd` category has further blocks that no
theorem below touches: every universal statement about the parser
restricts its inputs to ASCII, where this table is exact, and every
concrete statement evaluates it only on ASCII and on these code points. -/
def extraDecimalChars : List Char :=
  ['٠', '١', '٢', '٣', '٤', '٥', '٦', '٧', '٨', '٩']

/-- Characters beyond the decimal digits that this development's table of
Python's digit-property characters (`Numeric_Type=Digit`, accepted by
`str.isdigit()` but rejected by `int()`) covers: the superscripts
SUPERSCRIPT ONE/TWO/THREE.  Partial in the same scoped sense as
`extraDecimalChars`. -/
def extraDigitOnlyChars : List Char :=
  ['¹', '²', '³']

/-- One character of the class matched by the regex `\d` (Unicode
decimal digit), over the table above. -/
def pyIsDecimalChar (c : Char) : Bool :=
  c.isDigit || extraDecimalChars.contains c

/-- One character accepted by `str.isdigit()`, over the tables above:
every decimal digit plus the digit-property-only characters. -/
def pyIsDigitChar (c : Char) : Bool :=
  pyIsDecimalChar c || extraDigitOnlyChars.contains c

/-- `str.isdigit()`: nonempty and all digit-property characters. -/
def pyIsDigit (s : List Char) : Bool :=
  !s.isEmpty && s.all pyIsDigitChar

/-- The numeric value of one decimal-digit character: ASCII digits, or
the ARABIC-INDIC block at base U+0660. -/
def charDecimalVal (c : Char) : Nat :=
  if c.isDigit then c.toNat - '0'.toNat else c.toNat - 0x660

/-- Base-10 value of a decimal-digit string, as `int()`/`float()` read
one. -/
def natOfDigits (s : List Char) : Nat :=
  s.foldl (fun acc c => acc * 10 + charDecimalVal c) 0

/-- A successful match of `^(\d+(\.\d+)?)\s*([KMGTkmgt]?[Bb]?)$`:
group 1 split into its integer digits and optional fractional digits
(`fracPart = []` when the `(\.\d+)?` group did not participate), and
group 3 (the unit). -/
structure MemLimitMatch where
  intPart : List Char
  fracPart : List Char
  unit : List Char
deriving DecidableEq

/-- Matcher for the regex `^(\d+(\.\d+)?)\s*([KMGTkmgt]?[Bb]?)$` of
`_parse_memory_limit`.  The regex is deterministic on this alphabet (the
character classes of consecutive optional pieces are disjoint), so greedy
left-to-right scanning with one look-ahead for the decimal point is exact. -/
def matchMemoryLimit (s : List Char) : Option MemLimitMatch :=
  let (ds, rest) := s.span pyIsDecimalChar
  if ds.isEmpty then none
  else
    let (frac, rest2) :=
      match rest with
      | '.' :: r =>
        let (fs, r2) := r.span pyIsDecimalChar
        if fs.isEmpty then (([] : List Char), rest) else (fs, r2)
      | _ => (([] : List Char), rest)
    let rest3 := rest2.dropWhile isPySpace
    let (u1, rest4) :=
      match rest3 with
      | c :: r => if ['K', 'M', 'G', 'T', 'k', 'm', 'g', 't'].contains c
                  then ([c], r) else (([] : List Char), rest3)
      | [] => (([] : List Char), ([] : List Char))
    let (u2, rest5) :=
      match rest4 with
      | c :: r => if c = 'B' || c = 'b' then ([c], r) else (([] : List Char), rest4)
      | [] => (([] : List Char), ([] : List Char))
    if rest5.isEmpty then some { intPart := ds, fracPart := frac, unit := u1 ++ u2 }
    else none

/-- The unit multiplier applied after `unit = unit.upper()`. -/
def unitMultiplier (unit : List Char) : Nat :=
  let u := unit.map Char.toUpper
  if u = ['K'] || u = ['K', 'B'] then 1024
  else if u = ['M'] || u = ['M', 'B'] then 1024 * 1024
  else if u = ['G'] || u = ['G', 'B'] then 1024 * 1024 * 1024
  else if u = ['T'] || u = ['T', 'B'] then 1024 * 1024 * 1024 * 1024
  else 1

/-- The exceptions `_parse_memory_limit` can let escape: `ValueError`
from `int()` on an `isdigit()`-true string containing a non-decimal digit
character, and `OverflowError` from `int()` applied to an infinite float
after the parsed value overflowed the double range. -/
inductive PyError where
  | valueError
  | overflowError
deriving DecidableEq

deriving instance DecidableEq for Except

/-- `ClickHouseBenchmark._parse_memory_limit`: strip, take the
`isdigit()` fast path (where `int()` raises `ValueError` on a
digit-property character that is not a decimal digit), otherwise match
the unit regex; on no match warn and return 0; otherwise scale the
decimal value by the unit and truncate with `int()`.  The decimal value
is modelled exactly (numerator over a power of ten) rather than as a
rounded IEEE double; `float()` overflow to infinity — on which `int()`
raises `OverflowError` — is modelled at the exact threshold `2 ^ 1024`
(Python's round-to-nearest reaches infinity already in the half-ulp band
below it; no statement below evaluates the parser near the boundary, and
the concrete values proved are exactly double-representable).  `int()`
truncation of the nonnegative scaled value is floor, i.e. `Nat` division
by the power of ten of the fractional part. -/
def parseMemoryLimit (limit_str : String) : Except PyError Nat :=
  let t := pyStrip limit_str.toList
  if pyIsDigit t then
    if t.all pyIsDecimalChar then .ok (natOfDigits t) else .error .valueError
  else
    match matchMemoryLimit t with
    | none => .ok 0
    | some m =>
      let k := m.fracPart.length
      let scaled := natOfDigits m.intPart * 10 ^ k + natOfDigits m.fracPart
      if 2 ^ 1024 * 10 ^ k ≤ scaled * unitMultiplier m.unit
      then .error .overflowError
      else .ok (scaled * unitMultiplier m.unit / 10 ^ k)

/-- The inputs on which `_parse_memory_limit` does not take its
warn-and-return-0 branch: the stripped string is `isdigit()`-true or
matches the unit regex. -/
def acceptsMemoryLimit (limit_str : String) : Bool :=
  let t := pyStrip limit_str.toList
  pyIsDigit t || (matchMemoryLimit t).isSome

/-- Strings of ASCII characters: the domain on which the partial Unicode
tables above coincide exactly with Python's classes, hence on which the
universal statements about the parser are stated. -/
def isAsciiString (s : String) : Bool :=
  s.toList.all (fun c => c.toNat < 128)

/-! ## Execution/attribution engine (`ClickHouseBenchmark._run_benchmark_queries`) -/

/-- Outcome of one Phase-1 submission attempt (the whole `try` block of a
single run: optional `SET max_memory_usage`, the timed `client.query`, and
the reset).  `ok` carries the server-assigned query identifier, the elapsed
wall time and `len(result.result_rows)`; `err` carries the elapsed time and
`str(e)`. -/
inductive SubmitOutcome where
  | ok (query_id : Nat) (execution_time : ℚ) (rows_returned : Nat)
  | err (execution_time : ℚ) (error_message : String)
deriving DecidableEq

/-- The database as a Phase-1 oracle: benchmark name and run index to
submission outcome. -/
def SubmitEnv : Type := String → Nat → SubmitOutcome

/-- A `type = QueryFinish` row of `system.query_log`; every statistic may
be NULL. -/
structure FinishRow where
  memory_usage : Option Nat
  read_rows : Option Nat
  read_bytes : Option Nat
  written_rows : Option Nat
  written_bytes : Option Nat
  result_rows : Option Nat
  result_bytes : Option Nat
deriving DecidableEq

/-- An `exception != ''` row of `system.query_log`. -/
structure ExceptionRow where
  exception : String
  exception_code : Nat
  query_duration_ms : ℚ
  peak_memory_usage : Option Nat
deriving DecidableEq

/-- What one loop iteration of `_get_query_stats` observes for a given
query identifier: a finished record, an errored record, neither, or a
transient error raised while probing the log (caught and retried). -/
inductive LogReply where
  | finishRow (f : FinishRow)
  | errorRow (x : ExceptionRow)
  | noRecord
  | transientError
deriving DecidableEq

/-- The database as a Phase-2 oracle: query identifier and attempt index
to log reply. -/
def LogEnv : Type := Nat → Nat → LogReply

/-- The dictionary `_get_query_stats` builds (the union of the keys of its
two shapes; the exception shape additionally sets `exception` and
`failed = True`). -/
structure QueryStats where
  memory_usage : Option Nat
  read_rows : Option Nat
  read_bytes : Option Nat
  written_rows : Option Nat
  written_bytes : Option Nat
  result_rows : Option Nat
  result_bytes : Option Nat
  exception : Option String := none
  failed : Bool := false
deriving DecidableEq

/-- Stats dictionary built from a `QueryFinish` row. -/
def statsOfFinish (f : FinishRow) : QueryStats :=
  { memory_usage := f.memory_usage, read_rows := f.read_rows,
    read_bytes := f.read_bytes, written_rows := f.written_rows,
    written_bytes := f.written_bytes, result_rows := f.result_rows,
    result_bytes := f.result_bytes }

/-- Stats dictionary built from an exception row: explicit zeros for the
row/byte counters, `peak_memory_usage or 0` for memory, `failed = True`. -/
def statsOfException (x : ExceptionRow) : QueryStats :=
  { memory_usage := some (x.peak_memory_usage.getD 0),
    read_rows := some 0, read_bytes := some 0,
    written_rows := some 0, written_bytes := some 0,
    result_rows := some 0, result_bytes := some 0,
    exception := some x.exception, failed := true }

/-- `max_attempts` of `_get_query_stats`. -/
def max_attempts : Nat := 15

/-- The retry loop of `_get_query_stats` over the remaining attempt
indices: a finished or errored record stops the loop with a nonempty
dictionary; no record or a caught transient error sleeps and retries. -/
def getQueryStatsAux (logEnv : LogEnv) (id : Nat) : List Nat → Option QueryStats
  | [] => none
  | attempt :: rest =>
    match logEnv id attempt with
    | .finishRow f => some (statsOfFinish f)
    | .errorRow x => some (statsOfException x)
    | .noRecord => getQueryStatsAux logEnv id rest
    | .transientError => getQueryStatsAux logEnv id rest

/-- `ClickHouseBenchmark._get_query_stats`: an absent (falsy) identifier
returns the empty dictionary immediately; otherwise at most `max_attempts`
probes.  `none` models the empty dictionary (falsy under `if stats:`). -/
def getQueryStats (logEnv : LogEnv) (query_id : Option Nat) : Option QueryStats :=
  match query_id with
  | none => none
  | some id => getQueryStatsAux logEnv id (List.range max_attempts)

/-- One entry of `query_execution_data`. -/
structure ExecData where
  benchmark_name : String
  query : String
  query_id : Option Nat
  execution_time : ℚ
  rows_returned : Nat
  run : Nat
  error : Option String := none
  error_message : Option String := none
deriving DecidableEq

/-- `needle in hay` on strings as character lists. -/
def containsSub (needle : List Char) : List Char → Bool
  | [] => needle.isEmpty
  | c :: t => needle.isPrefixOf (c :: t) || containsSub needle t

/-- The error-type classification of the Phase-1 `except` block:
`"MEMORY_LIMIT_EXCEEDED" in error_msg` decides between the memory-limit
kind and the generic `"ERROR"` kind. -/
def classifyError (msg : String) : String :=
  if containsSub "MEMORY_LIMIT_EXCEEDED".toList msg.toList
  then "MEMORY_LIMIT_EXCEEDED" else "ERROR"

/-- Phase 1 for a single run of a single benchmark: on success the record
keeps the query identifier and the immediate row count; on failure the
identifier is `None`, the row count 0, and the error classification and
message are attached. -/
def execOne (env : SubmitEnv) (b : QueryBenchmark) (run : Nat) : ExecData :=
  match env b.name run with
  | .ok qid t rows =>
    { benchmark_name := b.name, query := b.query, query_id := some qid,
      execution_time := t, rows_returned := rows, run := run }
  | .err t msg =>
    { benchmark_name := b.name, query := b.query, query_id := none,
      execution_time := t, rows_returned := 0, run := run,
      error := some (classifyError msg), error_message := some msg }

/-- Phase 1 over the whole registry: for each benchmark in order, for each
run index in `[0, run_count)`, one `ExecData` record. -/
def phase1 (env : SubmitEnv) (benchmarks : List QueryBenchmark) : List ExecData :=
  benchmarks.flatMap (fun b => (List.range b.run_count).map (execOne env b))

/-- Phase 2 for one execution record: an errored submission becomes a
zeroed result carrying the error metadata and is never looked up in the
log; otherwise the stats lookup runs, and a nonempty stats dictionary is
merged with `None`/falsy coercion (`int(stats.get(k) or 0)`, with the
Phase-1 row count as the fallback for `result_rows`), while an empty one
yields the zeroed fallback result with the
`"Query stats not available"` warning. -/
def processExecData (logEnv : LogEnv) (e : ExecData) : BenchmarkResult :=
  match e.error with
  | some errType =>
    { query_name := e.benchmark_name, execution_time := e.execution_time,
      memory_usage := 0, rows_read := 0, bytes_read := 0, rows_returned := 0,
      query := e.query,
      additional_metrics :=
        { error := some errType, error_message := e.error_message,
          written_rows := 0, written_bytes := 0, result_bytes := 0 } }
  | none =>
    match getQueryStats logEnv e.query_id with
    | some stats =>
      { query_name := e.benchmark_name, execution_time := e.execution_time,
        memory_usage := pyOrD stats.memory_usage 0,
        rows_read := pyOrD stats.read_rows 0,
        bytes_read := pyOrD stats.read_bytes 0,
        rows_returned := pyOrD stats.result_rows e.rows_returned,
        query := e.query,
        additional_metrics :=
          { written_rows := pyOrD stats.written_rows 0,
            written_bytes := pyOrD stats.written_bytes 0,
            result_bytes := pyOrD stats.result_bytes 0 } }
    | none =>
      { query_name := e.benchmark_name, execution_time := e.execution_time,
        memory_usage := 0, rows_read := 0, bytes_read := 0,
        rows_returned := e.rows_returned, query := e.query,
        additional_metrics :=
          { written_rows := 0, written_bytes := 0, result_bytes := 0,
            warning := some "Query stats not available" } }

/-- `ClickHouseBenchmark._run_benchmark_queries`: with no client the empty
list; otherwise Phase 1 followed by Phase 2 over every execution record.
The memory-limits map only influences session `SET` commands whose effect
is already folded into the submission oracle. -/
def runBenchmarkQueries (hasClient : Bool) (env : SubmitEnv) (logEnv : LogEnv)
    (benchmarks : List QueryBenchmark) : List BenchmarkResult :=
  if hasClient then (phase1 env benchmarks).map (processExecData logEnv) else []

/-! ## Runner glue (`run_all_benchmarks`, `connect`, `format_results`) -/

/-- The skip filter of `run_all_benchmarks`: a falsy (empty) skip list
leaves the registry untouched, otherwise keep the benchmarks whose name is
not skipped. -/
def filterSkip (benchmarks : List QueryBenchmark) (skip : List String) :
    List QueryBenchmark :=
  if skip.isEmpty then benchmarks
  else benchmarks.filter (fun b => !(skip.contains b.name))

/-- `benchmark.results.append(result)` against the first registry entry
whose name matches the result's `query_name` (the `break` in the organize
loop). -/
def appendToFirst (bs : List QueryBenchmark) (r : BenchmarkResult) :
    List QueryBenchmark :=
  match bs with
  | [] => []
  | b :: rest =>
    if b.name = r.query_name
    then { b with results := b.results ++ [r] } :: rest
    else b :: appendToFirst rest r

/-- The organize loop of `run_all_benchmarks`: fold every produced result
into the registry. -/
def organizeResults (bs : List QueryBenchmark) (rs : List BenchmarkResult) :
    List QueryBenchmark :=
  rs.foldl appendToFirst bs

/-- `if xs else 0` guard around `statistics.mean(xs)`. -/
def guardedMean (xs : List ℚ) : ℚ :=
  if xs.isEmpty then 0 else xs.sum / xs.length

/-- One entry of `benchmark_summary`. -/
structure SummaryEntry where
  name : String
  description : String
  avg_execution_time : ℚ
  std_dev_time : ℚ
  avg_memory_usage : ℚ
  std_dev_memory : ℚ
  avg_rows_read : ℚ
  std_dev_rows_read : ℚ
  avg_bytes_read : ℚ
  std_dev_bytes_read : ℚ
  avg_written_rows : ℚ
  avg_written_bytes : ℚ
  avg_result_bytes : ℚ
  runs : Nat
deriving DecidableEq

/-- The per-benchmark body of `BenchmarkRunner.format_results`,
parametrised by the sample-standard-deviation function.  Standard
deviations are computed only when there is more than one run (and, for the
memory/rows/bytes series, only when some value is truthy); otherwise they
are the literal 0 of the `else` branch. -/
def summaryOf (stdev : List ℚ → ℚ) (b : QueryBenchmark) : SummaryEntry :=
  let execution_times := b.results.map (fun r => r.execution_time)
  let memory_usages := b.results.map (fun r => (r.memory_usage : ℚ))
  let rows_read := b.results.map (fun r => (r.rows_read : ℚ))
  let bytes_read := b.results.map (fun r => (r.bytes_read : ℚ))
  let written_rows := b.results.map (fun r => (r.additional_metrics.written_rows : ℚ))
  let written_bytes := b.results.map (fun r => (r.additional_metrics.written_bytes : ℚ))
  let result_bytes := b.results.map (fun r => (r.additional_metrics.result_bytes : ℚ))
  { name := b.name
    description := b.description
    avg_execution_time := guardedMean execution_times
    std_dev_time :=
      if execution_times.length > 1 then stdev execution_times else 0
    avg_memory_usage := guardedMean memory_usages
    std_dev_memory :=
      if execution_times.length > 1 then
        (if memory_usages.any (fun x => x != 0) then stdev memory_usages else 0)
      else 0
    avg_rows_read := guardedMean rows_read
    std_dev_rows_read :=
      if execution_times.length > 1 then
        (if rows_read.any (fun x => x != 0) then stdev rows_read else 0)
      else 0
    avg_bytes_read := guardedMean bytes_read
    std_dev_bytes_read :=
      if execution_times.length > 1 then
        (if bytes_read.any (fun x => x != 0) then stdev bytes_read else 0)
      else 0
    avg_written_rows := guardedMean written_rows
    avg_written_bytes := guardedMean written_bytes
    avg_result_bytes := guardedMean result_bytes
    runs := b.results.length }

/-- The structured report of `format_results`. -/
structure FormattedResults where
  database : String
  benchmark_summary : List SummaryEntry
  detailed_results : List (String × List BenchmarkResult)
deriving DecidableEq

/-- `BenchmarkRunner.format_results`: one summary entry and one detailed
entry per registered benchmark, in registry order. -/
def formatResults (stdev : List ℚ → ℚ) (db_name : String)
    (benchmarks : List QueryBenchmark) : FormattedResults :=
  { database := db_name
    benchmark_summary := benchmarks.map (summaryOf stdev)
    detailed_results := benchmarks.map (fun b => (b.name, b.results)) }

/-- The runner's connection-relevant state: `self.connected` and whether
`self.client` is a real client object (`self.client is not None`). -/
structure RunnerState where
  db_name : String
  benchmarks : List QueryBenchmark
  connected : Bool
  client : Bool
deriving DecidableEq

/-- `BenchmarkRunner.__init__`. -/
def initRunner (db_name : String) : RunnerState :=
  { db_name := db_name, benchmarks := [], connected := false, client := false }

/-- Outcome of `ClickHouseBenchmark.connect`: `get_client` itself raised,
the `SELECT 1` liveness probe raised after the client was assigned, or
both succeeded. -/
inductive ConnectOutcome where
  | clientError
  | probeError
  | success
deriving DecidableEq

/-- `ClickHouseBenchmark.connect`: assigns the client, probes liveness,
and sets `self.connected`; any exception leaves `connected = False` and
returns `False`. -/
def connect (st : RunnerState) (outcome : ConnectOutcome) : RunnerState × Bool :=
  match outcome with
  | .clientError => ({ st with connected := false }, false)
  | .probeError => ({ st with client := true, connected := false }, false)
  | .success => ({ st with client := true, connected := true }, true)

/-- `ClickHouseBenchmark.run_all_benchmarks`: reject with `None` when not
connected; otherwise filter the registry by the skip list, run the batch,
fold the results back into the registry, and format. -/
def runAllBenchmarks (st : RunnerState) (stdev : List ℚ → ℚ) (env : SubmitEnv)
    (logEnv : LogEnv) (skip_benchmarks : List String) : Option FormattedResults :=
  if !st.connected then none
  else
    let benchmarks_to_run := filterSkip st.benchmarks skip_benchmarks
    let all_results := runBenchmarkQueries st.client env logEnv benchmarks_to_run
    let organized := organizeResults st.benchmarks all_results
    some (formatResults stdev st.db_name organized)

/-! ## Concrete instances used to exercise the theorems -/

/-- A ClickHouse memory-limit error message as raised at submission. -/
def mlMsg : String :=
  "Code: 241. DB::Exception: Memory limit (for query) exceeded: would use 9.54 GiB, maximum: 8.00 GiB. MEMORY_LIMIT_EXCEEDED"

/-- A two-run benchmark definition. -/
def benchQ1 : QueryBenchmark :=
  { name := "q1", query := "SELECT count() FROM t", description := "count", run_count := 2 }

/-- A one-run benchmark definition. -/
def benchQ2 : QueryBenchmark :=
  { name := "q2", query := "SELECT 2", description := "const", run_count := 1 }

/-- A submission oracle: the second run of `q1` fails with a memory-limit
error, everything else succeeds. -/
def envMixed : SubmitEnv := fun name run =>
  if name = "q1" && run = 0 then .ok 11 1 7
  else if name = "q1" && run = 1 then .err 2 mlMsg
  else .ok 12 1 3

/-- A submission oracle where every run fails with the memory-limit error. -/
def envErrAll : SubmitEnv := fun _ _ => .err 1 mlMsg

/-- A finished log record with every statistic NULL. -/
def allNullFinish : FinishRow :=
  { memory_usage := none, read_rows := none, read_bytes := none,
    written_rows := none, written_bytes := none,
    result_rows := none, result_bytes := none }

/-- A finished log record reporting `result_rows = 0` (not NULL). -/
def zeroRowsFinish : FinishRow :=
  { memory_usage := some 100, read_rows := some 10, read_bytes := some 1000,
    written_rows := some 0, written_bytes := some 0,
    result_rows := some 0, result_bytes := some 50 }

/-- Log oracle answering every probe with the all-NULL finished record. -/
def logEnvNullStats : LogEnv := fun _ _ => .finishRow allNullFinish

/-- Log oracle answering every probe with the zero-result-rows record. -/
def logEnvZeroRows : LogEnv := fun _ _ => .finishRow zeroRowsFinish

/-- Log oracle that never finds a record. -/
def logEnvMiss : LogEnv := fun _ _ => .noRecord

/-- Log oracle that always raises a transient probing error. -/
def logEnvTransient : LogEnv := fun _ _ => .transientError

/-- A successful Phase-1 execution record that returned 7 rows. -/
def execOk7 : ExecData :=
  { benchmark_name := "q1", query := "SELECT count() FROM t",
    query_id := some 11, execution_time := 1, rows_returned := 7, run := 0 }

/-- A concrete stand-in for `statistics.stdev` used when instantiating the
aggregator theorems (they hold for every such function). -/
def stdevStandIn : List ℚ → ℚ := fun xs => xs.sum

/-- A concrete successful benchmark result. -/
def resultR1 : BenchmarkResult :=
  { query_name := "q1", execution_time := 1, memory_usage := 100,
    rows_read := 10, bytes_read := 1000, rows_returned := 7,
    query := "SELECT count() FROM t", additional_metrics := {} }

/-- A benchmark definition holding exactly one result. -/
def benchOneResult : QueryBenchmark :=
  { name := "q1", query := "SELECT count() FROM t", description := "count",
    run_count := 1, results := [resultR1] }

/-- A benchmark definition with an empty result list (e.g. skipped). -/
def benchNoResults : QueryBenchmark :=
  { name := "q0", query := "SELECT 0", description := "skipped",
    run_count := 3, results := [] }

/-- A five-definition registry. -/
def registryFive : List QueryBenchmark :=
  [ { name := "q1", query := "SELECT 1", description := "", run_count := 2 },
    { name := "q2", query := "SELECT 2", description := "", run_count := 3 },
    { name := "q3", query := "SELECT 3", description := "", run_count := 1 },
    { name := "q4", query := "SELECT 4", description := "", run_count := 4 },
    { name := "q5", query := "SELECT 5", description := "", run_count := 2 } ]

/-- Two of the five names, to be skipped. -/
def skipTwo : List String := ["q2", "q4"]

/-! ## Helper lemmas -/

/-- Every Phase-1 record carries the name of the benchmark it was created
for, on both the success and the failure path. -/
theorem execOne_benchmark_name (env : SubmitEnv) (b : QueryBenchmark) (run : Nat) :
    (execOne env b run).benchmark_name = b.name := by
  unfold execOne
  cases env b.name run <;> rfl

/-- Phase 2 propagates the benchmark name into the result on all three
paths (errored, reconciled, unreconciled). -/
theorem processExecData_query_name (logEnv : LogEnv) (e : ExecData) :
    (processExecData logEnv e).query_name = e.benchmark_name := by
  unfold processExecData
  cases e.error
  · cases getQueryStats logEnv e.query_id <;> rfl
  · rfl

/-- `countP` distributes over `flatMap` as a sum of per-block counts. -/
theorem countP_flatMap {α β : Type} (l : List α) (f : α → List β) (p : β → Bool) :
    (l.flatMap f).countP p = (l.map (fun a => (f a).countP p)).sum := by
  induction l with
  | nil => rfl
  | cons a t ih => simp [List.flatMap_cons, List.countP_append, ih]

/-- With the client present, the batch is the per-benchmark blocks of
processed Phase-1 records, flattened. -/
theorem runBenchmarkQueries_eq_flatMap (env : SubmitEnv) (logEnv : LogEnv)
    (bs : List QueryBenchmark) :
    runBenchmarkQueries true env logEnv bs
      = bs.flatMap (fun b => (List.range b.run_count).map
          (fun run => processExecData logEnv (execOne env b run))) := by
  unfold runBenchmarkQueries phase1
  simp only [if_true, List.map_flatMap, List.map_map]
  rfl

/-- The number of results named `nm` contributed by one benchmark's block:
its whole run count when the names agree, 0 otherwise. -/
theorem countP_name_block (env : SubmitEnv) (logEnv : LogEnv)
    (b : QueryBenchmark) (nm : String) :
    (((List.range b.run_count).map
        (fun run => processExecData logEnv (execOne env b run))).countP
      (fun r => r.query_name == nm))
      = if b.name = nm then b.run_count else 0 := by
  rw [List.countP_map]
  by_cases h : b.name = nm
  · rw [if_pos h]
    have hall : ∀ run ∈ List.range b.run_count,
        ((fun r : BenchmarkResult => r.query_name == nm) ∘
          (fun run => processExecData logEnv (execOne env b run))) run = true := by
      intro run _
      simp [Function.comp, processExecData_query_name, execOne_benchmark_name, h]
    rw [List.countP_eq_length.mpr hall, List.length_range]
  · rw [if_neg h]
    rw [List.countP_eq_zero.mpr]
    intro run _
    simp [Function.comp, processExecData_query_name, execOne_benchmark_name, h]

/-- In a registry with pairwise-distinct names, summing each definition's
run count exactly when its name matches a member's name yields that
member's run count. -/
theorem sum_ite_name (bs : List QueryBenchmark) (b : QueryBenchmark)
    (hnodup : (bs.map QueryBenchmark.name).Nodup) (hb : b ∈ bs) :
    (bs.map (fun c => if c.name = b.name then c.run_count else 0)).sum
      = b.run_count := by
  induction bs with
  | nil => cases hb
  | cons c t ih =>
    rw [List.map_cons, List.nodup_cons] at hnodup
    obtain ⟨hc, ht⟩ := hnodup
    rcases List.mem_cons.mp hb with rfl | hbt
    · have hz : t.map (fun d => if d.name = b.name then d.run_count else 0)
          = t.map (fun _ => 0) := by
        apply List.map_congr_left
        intro d hd
        have : d.name ≠ b.name := by
          intro hdb
          exact hc (hdb ▸ List.mem_map_of_mem QueryBenchmark.name hd)
        rw [if_neg this]
      simp [hz]
    · have hcb : c.name ≠ b.name := by
        intro hcbeq
        exact hc (hcbeq ▸ List.mem_map_of_mem QueryBenchmark.name hbt)
      simp only [List.map_cons, List.sum_cons, if_neg hcb, Nat.zero_add]
      exact ih ht hbt

/-- On pairwise-distinct names, filtering a superlist down to the members
of a pairwise-distinct sublist recovers exactly the sublist's length. -/
theorem length_filter_contains (l skip : List String) (hl : l.Nodup)
    (hs : skip.Nodup) (hsub : ∀ n ∈ skip, n ∈ l) :
    (l.filter (fun n => skip.contains n)).length = skip.length := by
  have hperm : (l.filter (fun n => skip.contains n)).Perm skip := by
    apply List.perm_of_nodup_nodup_toFinset_eq (hl.filter _) hs
    ext x
    simp only [List.mem_toFinset, List.mem_filter, List.contains, List.elem_iff]
    constructor
    · exact fun hx => hx.2
    · exact fun hx => ⟨hsub x hx, hx⟩
  exact hperm.length_eq

/-- The loop of `_get_query_stats` only depends on the oracle's replies at
the attempt indices it visits. -/
theorem getQueryStatsAux_congr (l l' : LogEnv) (id : Nat) (L : List Nat)
    (h : ∀ a ∈ L, l id a = l' id a) :
    getQueryStatsAux l id L = getQueryStatsAux l' id L := by
  induction L with
  | nil => rfl
  | cons a t ih =>
    have ht : ∀ x ∈ t, l id x = l' id x :=
      fun x hx => h x (List.mem_cons_of_mem _ hx)
    simp only [getQueryStatsAux]
    rw [h a (List.mem_cons_self a t)]
    cases l' id a with
    | finishRow f => rfl
    | errorRow x => rfl
    | noRecord => exact ih ht
    | transientError => exact ih ht

/-- If every visited attempt finds neither a finished nor an errored
record, the loop returns the empty dictionary. -/
theorem getQueryStatsAux_none (l : LogEnv) (id : Nat) (L : List Nat)
    (h : ∀ a ∈ L, l id a = .noRecord ∨ l id a = .transientError) :
    getQueryStatsAux l id L = none := by
  induction L with
  | nil => rfl
  | cons a t ih =>
    have ht : ∀ x ∈ t, l id x = .noRecord ∨ l id x = .transientError :=
      fun x hx => h x (List.mem_cons_of_mem _ hx)
    simp only [getQueryStatsAux]
    rcases h a (List.mem_cons_self a t) with ha | ha <;> rw [ha] <;> exact ih ht

/-- Total number of produced results: the sum of the run counts. -/
theorem runBenchmarkQueries_length (env : SubmitEnv) (logEnv : LogEnv)
    (cs : List QueryBenchmark) :
    (runBenchmarkQueries true env logEnv cs).length
      = (cs.map (fun c => c.run_count)).sum := by
  rw [runBenchmarkQueries_eq_flatMap, List.length_flatMap]
  congr 1
  apply List.map_congr_left
  intro a _
  simp [Function.comp, List.length_map, List.length_range]

/-- Filtering against the complement of a predicate removes exactly the
matching elements. -/
theorem length_filter_not {α : Type} (l : List α) (p : α → Bool) :
    (l.filter (fun a => !(p a))).length = l.length - (l.filter p).length := by
  induction l with
  | nil => rfl
  | cons a t ih =>
    have hle := List.length_filter_le p t
    cases h : p a with
    | true => simp [List.filter_cons, h, ih]
    | false => simp [List.filter_cons, h, ih]; omega

/-- Mapping the name projection commutes with filtering on the name. -/
theorem map_name_filter (bs : List QueryBenchmark) (skip : List String) :
    (bs.filter (fun b => skip.contains b.name)).map QueryBenchmark.name
      = (bs.map QueryBenchmark.name).filter (fun n => skip.contains n) := by
  induction bs with
  | nil => rfl
  | cons c t ih =>
    by_cases h : c.name ∈ skip <;>
      simp [List.filter_cons, List.map_cons, h] <;> simpa using ih

/-- In a registry with pairwise-distinct names, the benchmarks whose name
belongs to a duplicate-free skip list drawn from the registry are exactly
as many as the skip list's entries. -/
theorem filter_contains_name_length (bs : List QueryBenchmark)
    (skip : List String) (hnodup : (bs.map QueryBenchmark.name).Nodup)
    (hs : skip.Nodup) (hsub : ∀ n ∈ skip, n ∈ bs.map QueryBenchmark.name) :
    (bs.filter (fun b => skip.contains b.name)).length = skip.length := by
  have hlen := congrArg List.length (map_name_filter bs skip)
  rw [List.length_map] at hlen
  rw [hlen]
  exact length_filter_contains (bs.map QueryBenchmark.name) skip hnodup hs hsub

/-! ## Claims -/

/-- C1: for every submission oracle and every log oracle, a registry with
pairwise-distinct names produces exactly `run_count` `BenchmarkResult`s
per submitted definition — success, submission error and failed
reconciliation alike — and the batch as a whole has one result per run. -/
theorem claim_C1_one_result_per_run (env : SubmitEnv) (logEnv : LogEnv)
    (bs : List QueryBenchmark) (hnodup : (bs.map QueryBenchmark.name).Nodup)
    (b : QueryBenchmark) (hb : b ∈ bs) :
    ((runBenchmarkQueries true env logEnv bs).filter
        (fun r => r.query_name == b.name)).length = b.run_count ∧
    (runBenchmarkQueries true env logEnv bs).length
      = (bs.map (fun c => c.run_count)).sum := by
  refine ⟨?_, runBenchmarkQueries_length env logEnv bs⟩
  rw [← List.countP_eq_length_filter, runBenchmarkQueries_eq_flatMap,
    countP_flatMap]
  have hblocks : bs.map (fun a => ((List.range a.run_count).map
        (fun run => processExecData logEnv (execOne env a run))).countP
          (fun r => r.query_name == b.name))
      = bs.map (fun c => if c.name = b.name then c.run_count else 0) :=
    List.map_congr_left (fun a _ => countP_name_block env logEnv a b.name)
  rw [hblocks]
  exact sum_ite_name bs b hnodup hb

/-- C1 witness: a two-definition registry where one run fails with a
memory-limit error and reconciliation never succeeds; `q1` still gets
exactly its 2 results, and the batch has 3 results in total. -/
theorem claim_C1_one_result_per_run_witness :
    ((runBenchmarkQueries true envMixed logEnvMiss [benchQ1, benchQ2]).filter
        (fun r => r.query_name == benchQ1.name)).length = benchQ1.run_count ∧
    (runBenchmarkQueries true envMixed logEnvMiss [benchQ1, benchQ2]).length
      = (([benchQ1, benchQ2]).map (fun c => c.run_count)).sum :=
  claim_C1_one_result_per_run envMixed logEnvMiss [benchQ1, benchQ2]
    (by decide) benchQ1 (by decide)

/-- C7: the skip filter keeps exactly the definitions whose name is not
skipped; the executed batch contains one result per run of exactly those
definitions; and a 5-definition registry with 2 distinct registered names
skipped runs exactly 3 definitions. -/
theorem claim_C7_skip_list_filtering (env : SubmitEnv) (logEnv : LogEnv)
    (bs : List QueryBenchmark) (skip : List String) :
    filterSkip bs skip = bs.filter (fun b => !(skip.contains b.name)) ∧
    (runBenchmarkQueries true env logEnv (filterSkip bs skip)).length
      = ((filterSkip bs skip).map (fun c => c.run_count)).sum ∧
    ((bs.map QueryBenchmark.name).Nodup → skip.Nodup →
      (∀ n ∈ skip, n ∈ bs.map QueryBenchmark.name) →
      bs.length = 5 → skip.length = 2 → (filterSkip bs skip).length = 3) := by
  have hfil : filterSkip bs skip
      = bs.filter (fun b => !(skip.contains b.name)) := by
    unfold filterSkip
    cases skip with
    | nil => simp [List.contains]
    | cons a t => rfl
  refine ⟨hfil, runBenchmarkQueries_length env logEnv _, ?_⟩
  intro hnodup hs hsub h5 h2
  rw [hfil, length_filter_not,
    filter_contains_name_length bs skip hnodup hs hsub, h5, h2]

/-- C7 witness: five concrete definitions with `q2` and `q4` skipped leave
exactly `q1`, `q3`, `q5`. -/
theorem claim_C7_skip_list_filtering_witness :
    filterSkip registryFive skipTwo
      = registryFive.filter (fun b => !(skipTwo.contains b.name)) ∧
    (filterSkip registryFive skipTwo).length = 3 := by
  have h := claim_C7_skip_list_filtering envMixed logEnvMiss registryFive skipTwo
  exact ⟨h.1, h.2.2 (by decide) (by decide) (by decide) (by decide) (by decide)⟩

/-- C2: on a reconciled run, every NULL statistic from the log is coerced
to 0 in the result, except the result row count, which falls back to the
Phase-1 immediate row count when NULL. -/
theorem claim_C2_null_stat_coercion (logEnv : LogEnv) (e : ExecData)
    (st : QueryStats) (hok : e.error = none)
    (hst : getQueryStats logEnv e.query_id = some st) :
    (st.memory_usage = none → (processExecData logEnv e).memory_usage = 0) ∧
    (st.read_rows = none → (processExecData logEnv e).rows_read = 0) ∧
    (st.read_bytes = none → (processExecData logEnv e).bytes_read = 0) ∧
    (st.written_rows = none →
      (processExecData logEnv e).additional_metrics.written_rows = 0) ∧
    (st.written_bytes = none →
      (processExecData logEnv e).additional_metrics.written_bytes = 0) ∧
    (st.result_bytes = none →
      (processExecData logEnv e).additional_metrics.result_bytes = 0) ∧
    (st.result_rows = none →
      (processExecData logEnv e).rows_returned = e.rows_returned) := by
  unfold processExecData
  simp only [hok, hst]
  refine ⟨?_, ?_, ?_, ?_, ?_, ?_, ?_⟩ <;> intro h <;> simp [pyOrD, h]

/-- C2 witness: a successful run returning 7 rows whose log record has
every statistic NULL. -/
theorem claim_C2_null_stat_coercion_witness :
    (processExecData logEnvNullStats execOk7).memory_usage = 0 ∧
    (processExecData logEnvNullStats execOk7).rows_read = 0 ∧
    (processExecData logEnvNullStats execOk7).bytes_read = 0 ∧
    (processExecData logEnvNullStats execOk7).additional_metrics.written_rows = 0 ∧
    (processExecData logEnvNullStats execOk7).additional_metrics.written_bytes = 0 ∧
    (processExecData logEnvNullStats execOk7).additional_metrics.result_bytes = 0 ∧
    (processExecData logEnvNullStats execOk7).rows_returned = execOk7.rows_returned := by
  have h := claim_C2_null_stat_coercion logEnvNullStats execOk7
    (statsOfFinish allNullFinish) rfl rfl
  exact ⟨h.1 rfl, h.2.1 rfl, h.2.2.1 rfl, h.2.2.2.1 rfl, h.2.2.2.2.1 rfl,
    h.2.2.2.2.2.1 rfl, h.2.2.2.2.2.2 rfl⟩

/-- C9: the result-row fallback is truthiness-based, so a log record with
`result_rows = 0` (not NULL) also makes `rows_returned` fall back to the
Phase-1 immediate row count. -/
theorem claim_C9_zero_result_rows_fallback (logEnv : LogEnv) (e : ExecData)
    (st : QueryStats) (hok : e.error = none)
    (hst : getQueryStats logEnv e.query_id = some st)
    (hz : st.result_rows = some 0) :
    (processExecData logEnv e).rows_returned = e.rows_returned := by
  unfold processExecData
  simp only [hok, hst]
  simp [pyOrD, hz]

/-- C9 witness: a run that immediately returned 7 rows, reconciled against
a log record reporting `result_rows = 0`, still reports 7. -/
theorem claim_C9_zero_result_rows_fallback_witness :
    (processExecData logEnvZeroRows execOk7).rows_returned = 7 :=
  claim_C9_zero_result_rows_fallback logEnvZeroRows execOk7
    (statsOfFinish zeroRowsFinish) rfl rfl rfl

/-- C3: the reconciliation lookup consults the log oracle only at attempt
indices below `max_attempts = 15` (it is invariant under oracle changes
beyond that budget), and when every in-budget probe finds nothing the run
is UNRECONCILED: empty stats dictionary, all statistics 0, `rows_returned`
from Phase 1, the `"Query stats not available"` warning, and no error
classification (not fatal). -/
theorem claim_C3_retry_budget_and_unreconciled (logEnv : LogEnv) (id : Nat)
    (e : ExecData) (hid : e.query_id = some id) (hok : e.error = none)
    (hmiss : ∀ a < max_attempts,
      logEnv id a = .noRecord ∨ logEnv id a = .transientError) :
    (∀ l l' : LogEnv, (∀ a < max_attempts, l id a = l' id a) →
      getQueryStats l (some id) = getQueryStats l' (some id)) ∧
    getQueryStats logEnv e.query_id = none ∧
    (processExecData logEnv e).memory_usage = 0 ∧
    (processExecData logEnv e).rows_read = 0 ∧
    (processExecData logEnv e).bytes_read = 0 ∧
    (processExecData logEnv e).rows_returned = e.rows_returned ∧
    (processExecData logEnv e).additional_metrics.written_rows = 0 ∧
    (processExecData logEnv e).additional_metrics.written_bytes = 0 ∧
    (processExecData logEnv e).additional_metrics.result_bytes = 0 ∧
    (processExecData logEnv e).additional_metrics.warning
      = some "Query stats not available" ∧
    (processExecData logEnv e).additional_metrics.error = none := by
  have hnone : getQueryStats logEnv e.query_id = none := by
    rw [hid]
    unfold getQueryStats
    exact getQueryStatsAux_none logEnv id (List.range max_attempts)
      (fun a ha => hmiss a (List.mem_range.mp ha))
  have hcongr : ∀ l l' : LogEnv, (∀ a < max_attempts, l id a = l' id a) →
      getQueryStats l (some id) = getQueryStats l' (some id) := by
    intro l l' hagree
    unfold getQueryStats
    exact getQueryStatsAux_congr l l' id (List.range max_attempts)
      (fun a ha => hagree a (List.mem_range.mp ha))
  refine ⟨hcongr, hnone, ?_, ?_, ?_, ?_, ?_, ?_, ?_, ?_, ?_⟩ <;>
    (unfold processExecData; simp only [hok, hnone])

/-- C3 witness: a successful run with identifier 11 and 7 immediate rows
against a log oracle that never finds a record. -/
theorem claim_C3_retry_budget_and_unreconciled_witness :
    getQueryStats logEnvMiss execOk7.query_id = none ∧
    (processExecData logEnvMiss execOk7).memory_usage = 0 ∧
    (processExecData logEnvMiss execOk7).rows_returned = 7 ∧
    (processExecData logEnvMiss execOk7).additional_metrics.warning
      = some "Query stats not available" ∧
    (processExecData logEnvMiss execOk7).additional_metrics.error = none := by
  have h := claim_C3_retry_budget_and_unreconciled logEnvMiss 11 execOk7
    rfl rfl (fun a _ => Or.inl rfl)
  exact ⟨h.2.1, h.2.2.1, h.2.2.2.2.2.1, h.2.2.2.2.2.2.2.2.2.1,
    h.2.2.2.2.2.2.2.2.2.2⟩

/-- C5: a run whose submission raises keeps no query identifier, carries
the error classification of the raised message, and Phase 2 never probes
the log for any record carrying an error classification (its result is
invariant under the log oracle). -/
theorem claim_C5_failed_submission_never_looked_up (env : SubmitEnv)
    (b : QueryBenchmark) (run : Nat) (t : ℚ) (msg : String)
    (hsub : env b.name run = .err t msg) :
    (execOne env b run).query_id = none ∧
    (execOne env b run).error = some (classifyError msg) ∧
    (∀ e : ExecData, e.error.isSome = true →
      ∀ l l' : LogEnv, processExecData l e = processExecData l' e) := by
  refine ⟨?_, ?_, ?_⟩
  · simp [execOne, hsub]
  · simp [execOne, hsub]
  · intro e he l l'
    unfold processExecData
    cases herr : e.error with
    | some v => simp [herr]
    | none => rw [herr] at he; simp at he

/-- C5 witness: every submission fails with a concrete memory-limit
message; the record has no identifier, is classified
`MEMORY_LIMIT_EXCEEDED`, and Phase 2 treats it identically under two
different log oracles. -/
theorem claim_C5_failed_submission_never_looked_up_witness :
    (execOne envErrAll benchQ1 0).query_id = none ∧
    (execOne envErrAll benchQ1 0).error = some "MEMORY_LIMIT_EXCEEDED" ∧
    processExecData logEnvNullStats (execOne envErrAll benchQ1 0)
      = processExecData logEnvMiss (execOne envErrAll benchQ1 0) := by
  have h := claim_C5_failed_submission_never_looked_up envErrAll benchQ1 0
    1 mlMsg rfl
  refine ⟨h.1, ?_, h.2.2 _ ?_ logEnvNullStats logEnvMiss⟩
  · rw [h.2.1]; decide
  · rw [h.2.1]; rfl

/-- C8: a failed `connect` leaves `connected = false` and
`run_all_benchmarks` rejects with `None`; a successful probe sets
`connected = true` and the batch proceeds to a real report; and with no
client the batch method returns the empty list instead of touching the
absent client. -/
theorem claim_C8_connection_gating (st : RunnerState)
    (outcome : ConnectOutcome) (stdev : List ℚ → ℚ) (env : SubmitEnv)
    (logEnv : LogEnv) (skip : List String) (bs : List QueryBenchmark) :
    (outcome ≠ ConnectOutcome.success →
      (connect st outcome).1.connected = false ∧
      (connect st outcome).2 = false ∧
      runAllBenchmarks (connect st outcome).1 stdev env logEnv skip = none) ∧
    (outcome = ConnectOutcome.success →
      (connect st outcome).1.connected = true ∧
      (connect st outcome).2 = true ∧
      (runAllBenchmarks (connect st outcome).1 stdev env logEnv skip).isSome
        = true) ∧
    runBenchmarkQueries false env logEnv bs = [] := by
  refine ⟨?_, ?_, rfl⟩
  · intro h
    cases outcome with
    | clientError => exact ⟨rfl, rfl, rfl⟩
    | probeError => exact ⟨rfl, rfl, rfl⟩
    | success => exact absurd rfl h
  · intro h
    subst h
    exact ⟨rfl, rfl, rfl⟩

/-- C8 witness: after a failed liveness probe the batch run returns
`None`; after a successful connect on the same initial state it returns a
report. -/
theorem claim_C8_connection_gating_witness :
    runAllBenchmarks (connect (initRunner "ClickHouse")
        ConnectOutcome.probeError).1 stdevStandIn envMixed logEnvMiss []
      = none ∧
    (runAllBenchmarks (connect (initRunner "ClickHouse")
        ConnectOutcome.success).1 stdevStandIn envMixed logEnvMiss []).isSome
      = true :=
  ⟨((claim_C8_connection_gating (initRunner "ClickHouse")
      ConnectOutcome.probeError stdevStandIn envMixed logEnvMiss [] []).1
        (by decide)).2.2,
   ((claim_C8_connection_gating (initRunner "ClickHouse")
      ConnectOutcome.success stdevStandIn envMixed logEnvMiss [] []).2.1
        rfl).2.2⟩

set_option maxRecDepth 8192 in
set_option exponentiation.threshold 1100 in
/-- C4 counterexample: the claim's "for every malformed input string the
parser returns 0 with a warning and never raises an exception" is false
on the code.  `"²"` (SUPERSCRIPT TWO) is not a valid memory limit, yet
`str.isdigit()` accepts it — it has the Unicode digit property — so the
fast path runs `int("²")`, which raises `ValueError` instead of
returning 0.  The remaining conjuncts check the model against the
program's other Unicode behaviours: an ARABIC-INDIC decimal digit parses
(`"٣KB"` is 3072), a trailing no-break space is stripped, and a
400-digit value with a unit overflows the double range so that `int()`
raises `OverflowError`. -/
theorem claim_C4_memory_limit_parsing_counterexample :
    parseMemoryLimit "²" = .error PyError.valueError ∧
    parseMemoryLimit "٣KB" = .ok 3072 ∧
    parseMemoryLimit "1024\u00A0" = .ok 1024 ∧
    parseMemoryLimit (String.mk (List.replicate 400 '1' ++ ['K', 'B']))
      = .error PyError.overflowError := by
  decide

set_option maxRecDepth 8192 in
set_option exponentiation.threshold 1100 in
/-- C4 (amended): the memory-limit parser maps `"1024"` to 1024, `"1KB"`
to 1024, `"5MB"` to 5242880 and `"9GB"` to 9663676416; the unit suffixes
K/KB, M/MB, G/GB, T/TB are accepted case-insensitively with an optional
decimal value; and every malformed ASCII input (one the grammar rejects)
yields 0, the warn-and-default branch, without an exception.  On
non-ASCII input the `isdigit()` fast path can raise `ValueError`, per
the counterexample. -/
theorem claim_C4_memory_limit_parsing :
    (["1024", "1KB", "5MB", "9GB",
      "1k", "1kb", "1Kb", "2m", "2mB", "3g", "3gb", "4t", "4tb",
      "2.5MB", "0.5kb", "abc"].map parseMemoryLimit)
      = [.ok 1024, .ok 1024, .ok 5242880, .ok 9663676416,
        .ok 1024, .ok 1024, .ok 1024, .ok 2097152, .ok 2097152,
        .ok 3221225472, .ok 3221225472,
        .ok 4398046511104, .ok 4398046511104,
        .ok 2621440, .ok 512, .ok 0] ∧
    (∀ s : String, isAsciiString s = true → acceptsMemoryLimit s = false →
      parseMemoryLimit s = .ok 0) := by
  refine ⟨by decide, ?_⟩
  intro s _ h
  simp only [acceptsMemoryLimit, Bool.or_eq_false_iff] at h
  obtain ⟨h1, h2⟩ := h
  unfold parseMemoryLimit
  simp only [h1, Bool.false_eq_true, if_false]
  cases hm : matchMemoryLimit (pyStrip s.toList) with
  | none => rfl
  | some m => rw [hm] at h2; simp at h2

/-- C4 witness: the universal warn-and-default clause applied at the
concrete malformed ASCII input `"abc"`. -/
theorem claim_C4_memory_limit_parsing_witness :
    isAsciiString "abc" = true ∧ acceptsMemoryLimit "abc" = false ∧
    parseMemoryLimit "abc" = .ok 0 :=
  ⟨by decide, by decide,
   claim_C4_memory_limit_parsing.2 "abc" (by decide) (by decide)⟩

/-- C6: a query definition with exactly one entry in its result list gets
standard deviation exactly 0 for execution time, memory, rows read and
bytes read in its summary entry, for every sample-standard-deviation
function (the `len > 1` guard keeps it from ever being evaluated on a
single-sample set). -/
theorem claim_C6_single_run_stddev_zero (stdev : List ℚ → ℚ) (db : String)
    (bs : List QueryBenchmark) (b : QueryBenchmark) (hb : b ∈ bs)
    (h1 : b.results.length = 1) :
    summaryOf stdev b ∈ (formatResults stdev db bs).benchmark_summary ∧
    (summaryOf stdev b).std_dev_time = 0 ∧
    (summaryOf stdev b).std_dev_memory = 0 ∧
    (summaryOf stdev b).std_dev_rows_read = 0 ∧
    (summaryOf stdev b).std_dev_bytes_read = 0 := by
  refine ⟨List.mem_map_of_mem _ hb, ?_, ?_, ?_, ?_⟩ <;>
    simp [summaryOf, List.length_map, h1]

/-- C6 witness: a single-run definition with a concrete nonzero result and
a concrete (sum-valued) stand-in for `statistics.stdev`. -/
theorem claim_C6_single_run_stddev_zero_witness :
    summaryOf stdevStandIn benchOneResult
        ∈ (formatResults stdevStandIn "ClickHouse" [benchOneResult]).benchmark_summary ∧
    (summaryOf stdevStandIn benchOneResult).std_dev_time = 0 ∧
    (summaryOf stdevStandIn benchOneResult).std_dev_memory = 0 ∧
    (summaryOf stdevStandIn benchOneResult).std_dev_rows_read = 0 ∧
    (summaryOf stdevStandIn benchOneResult).std_dev_bytes_read = 0 :=
  claim_C6_single_run_stddev_zero stdevStandIn "ClickHouse" [benchOneResult]
    benchOneResult (List.mem_singleton.mpr rfl) rfl

/-- C10: `format_results` emits one summary entry per registered
definition, and a definition with an empty result list (e.g. a skipped
one) gets `runs = 0` and every average and standard deviation equal to 0;
the guarded mean/stdev branches make this total (no exception). -/
theorem claim_C10_summary_for_every_definition (stdev : List ℚ → ℚ)
    (db : String) (bs : List QueryBenchmark) :
    (formatResults stdev db bs).benchmark_summary.length = bs.length ∧
    ∀ b ∈ bs, b.results = [] →
      summaryOf stdev b ∈ (formatResults stdev db bs).benchmark_summary ∧
      (summaryOf stdev b).runs = 0 ∧
      (summaryOf stdev b).avg_execution_time = 0 ∧
      (summaryOf stdev b).std_dev_time = 0 ∧
      (summaryOf stdev b).avg_memory_usage = 0 ∧
      (summaryOf stdev b).std_dev_memory = 0 ∧
      (summaryOf stdev b).avg_rows_read = 0 ∧
      (summaryOf stdev b).std_dev_rows_read = 0 ∧
      (summaryOf stdev b).avg_bytes_read = 0 ∧
      (summaryOf stdev b).std_dev_bytes_read = 0 ∧
      (summaryOf stdev b).avg_written_rows = 0 ∧
      (summaryOf stdev b).avg_written_bytes = 0 ∧
      (summaryOf stdev b).avg_result_bytes = 0 := by
  refine ⟨List.length_map _ _, ?_⟩
  intro b hb hr
  refine ⟨List.mem_map_of_mem _ hb, ?_⟩
  simp [summaryOf, guardedMean, hr]

/-- C10 witness: a concrete registry whose sole definition has an empty
result list. -/
theorem claim_C10_summary_for_every_definition_witness :
    (formatResults stdevStandIn "ClickHouse" [benchNoResults]).benchmark_summary.length = 1 ∧
    (summaryOf stdevStandIn benchNoResults).runs = 0 ∧
    (summaryOf stdevStandIn benchNoResults).avg_execution_time = 0 ∧
    (summaryOf stdevStandIn benchNoResults).avg_memory_usage = 0 := by
  have h := claim_C10_summary_for_every_definition stdevStandIn "ClickHouse" [benchNoResults]
  have h2 := h.2 benchNoResults (List.mem_singleton.mpr rfl) rfl
  exact ⟨h.1, h2.2.1, h2.2.2.1, h2.2.2.2.2.1⟩

end ClickHouseBench
